import Mathlib

/-!
Shallow embedding of the Obalomat server handlers (TypeScript + drizzle-orm
over PostgreSQL) and proofs about them.

Conventions of the embedding:
- The relational store is a `DB` record of row lists, one per table, plus a
  surrogate-id counter (`nextId`, modelling the serial columns) and a clock
  tick (`now`, modelling the values produced by the new Date() calls of a
  single handler invocation).
- Each handler becomes a pure function `input → DB → Except String (row × DB)`;
  a thrown Error becomes `.error msg` with the source's message text, and no
  new store is produced on error, which models the all-or-nothing behaviour
  of the handlers (every validation in the source happens before any write).
- SQL selects become `List.filter`, row[0] becomes the head of the filtered
  list, SQL updates become `List.map` guarded by the WHERE condition, inserts
  append to the row list.
- numeric (decimal) columns are stored as strings, exactly as in the schema:
  inserts store `toString` of the rational input (the source's .toString()).
  The parseFloat conversion applied to returned copies of rows is not
  modelled (it never affects the store, and no property here depends on it).
- Timestamps are clock ticks (`Nat`); JavaScript optional number arguments
  become `Option Nat`, with a separate `truthyId` test where the source
  tests truthiness rather than presence.
-/

/-- user_role enum: buyer | supplier. -/
inductive Role where
  | buyer
  | supplier
deriving DecidableEq, Repr

/-- packaging_type enum (11 values). -/
inductive PackagingType where
  | boxes
  | bottles
  | bags
  | containers
  | labels
  | pouches
  | tubes
  | cans
  | jars
  | wrapping
  | other
deriving DecidableEq, Repr

/-- material_type enum (11 values). -/
inductive MaterialType where
  | cardboard
  | plastic
  | glass
  | metal
  | paper
  | fabric
  | wood
  | biodegradable
  | recyclable
  | compostable
  | other
deriving DecidableEq, Repr

/-- certification_type enum (9 values). -/
inductive CertificationType where
  | fsc
  | pefc
  | iso14001
  | iso9001
  | brc
  | fda
  | eu_organic
  | cradle_to_cradle
  | other
deriving DecidableEq, Repr

/-- inquiry_status enum: pending | responded | closed. -/
inductive InquiryStatus where
  | pending
  | responded
  | closed
deriving DecidableEq, Repr

/-- Row of the users table. -/
structure User where
  id : Nat
  email : String
  password_hash : String
  company_name : String
  contact_person : String
  phone : Option String
  role : Role
  location : String
  description : Option String
  website : Option String
  created_at : Nat
  updated_at : Nat
deriving DecidableEq, Repr

/-- Row of the supplier_profiles table. The price range columns are numeric
columns; they are kept here as the rational numbers they denote, because the
only operation over them in this development is the numeric comparison of
the spec-modelled supplier search. -/
structure SupplierProfile where
  id : Nat
  user_id : Nat
  packaging_types : List PackagingType
  materials : List MaterialType
  min_order_quantity : Nat
  personalization_available : Bool
  price_range_min : Option Rat
  price_range_max : Option Rat
  delivery_time_days : Nat
  certifications : List CertificationType
  created_at : Nat
  updated_at : Nat
deriving DecidableEq, Repr

/-- Row of the inquiries table (budget columns are numeric, stored as
strings). -/
structure Inquiry where
  id : Nat
  buyer_id : Nat
  packaging_type : PackagingType
  material : MaterialType
  quantity : Nat
  personalization_needed : Bool
  description : String
  budget_min : Option String
  budget_max : Option String
  delivery_deadline : Option Nat
  status : InquiryStatus
  created_at : Nat
  updated_at : Nat
deriving DecidableEq, Repr

/-- Row of the inquiry_suppliers junction table. -/
structure InquirySupplier where
  id : Nat
  inquiry_id : Nat
  supplier_id : Nat
  sent_at : Nat
deriving DecidableEq, Repr

/-- Row of the quotes table (price columns are numeric, stored as strings). -/
structure Quote where
  id : Nat
  inquiry_id : Nat
  supplier_id : Nat
  price_per_unit : String
  total_price : String
  delivery_time_days : Nat
  notes : Option String
  created_at : Nat
deriving DecidableEq, Repr

/-- Row of the messages table. -/
structure Message where
  id : Nat
  sender_id : Nat
  recipient_id : Nat
  inquiry_id : Option Nat
  subject : String
  content : String
  sent_at : Nat
  read_at : Option Nat
deriving DecidableEq, Repr

/-- Row of the file_attachments table. -/
structure FileAttachment where
  id : Nat
  inquiry_id : Option Nat
  message_id : Option Nat
  filename : String
  file_path : String
  file_size : Int
  mime_type : String
  uploaded_at : Nat
deriving DecidableEq, Repr

/-- Row of the ratings table. -/
structure Rating where
  id : Nat
  rater_id : Nat
  rated_id : Nat
  inquiry_id : Option Nat
  rating : Nat
  comment : Option String
  created_at : Nat
deriving DecidableEq, Repr

/-- The relational store: one list of rows per table, the serial-id counter
and the current clock tick. -/
structure DB where
  users : List User
  supplierProfiles : List SupplierProfile
  inquiries : List Inquiry
  inquirySuppliers : List InquirySupplier
  quotes : List Quote
  messages : List Message
  fileAttachments : List FileAttachment
  ratings : List Rating
  nextId : Nat
  now : Nat
deriving DecidableEq, Repr

/-- createInquiryInputSchema. -/
structure CreateInquiryInput where
  buyer_id : Nat
  packaging_type : PackagingType
  material : MaterialType
  quantity : Nat
  personalization_needed : Bool
  description : String
  budget_min : Option Rat
  budget_max : Option Rat
  delivery_deadline : Option Nat
  supplier_ids : List Nat
deriving DecidableEq, Repr

/-- updateInquiryStatusInputSchema. -/
structure UpdateInquiryStatusInput where
  id : Nat
  status : InquiryStatus
deriving DecidableEq, Repr

/-- createQuoteInputSchema. -/
structure CreateQuoteInput where
  inquiry_id : Nat
  supplier_id : Nat
  price_per_unit : Rat
  total_price : Rat
  delivery_time_days : Nat
  notes : Option String
deriving DecidableEq, Repr

/-- createRatingInputSchema. -/
structure CreateRatingInput where
  rater_id : Nat
  rated_id : Nat
  inquiry_id : Option Nat
  rating : Nat
  comment : Option String
deriving DecidableEq, Repr

/-- updateUserInputSchema: id plus optional patch fields; for nullable
columns the outer Option is presence in the input, the inner one is the
(possibly null) value. -/
structure UpdateUserInput where
  id : Nat
  company_name : Option String
  contact_person : Option String
  phone : Option (Option String)
  location : Option String
  description : Option (Option String)
  website : Option (Option String)
deriving DecidableEq, Repr

/-- searchSuppliersInputSchema: every filter optional. -/
structure SearchSuppliersInput where
  packaging_types : Option (List PackagingType)
  materials : Option (List MaterialType)
  location : Option String
  max_min_order_quantity : Option Nat
  personalization_required : Option Bool
  certifications : Option (List CertificationType)
  price_range_max : Option Rat
  delivery_time_max_days : Option Nat
deriving DecidableEq, Repr

/-- The name a status prints as in error messages. -/
def statusName : InquiryStatus → String
  | .pending => "pending"
  | .responded => "responded"
  | .closed => "closed"

/-- statusOrder of update_inquiry_status.ts. -/
def statusOrder : List InquiryStatus := [.pending, .responded, .closed]

/-- statusOrder.indexOf. -/
def statusIndex (s : InquiryStatus) : Nat :=
  statusOrder.findIdx (fun x => x == s)

/-- The transition error message of update_inquiry_status.ts, naming both
the current and the requested status. -/
def transitionErrorMsg (cur new : InquiryStatus) : String :=
  let cs := statusName cur
  let ns := statusName new
  "Invalid status transition: cannot change from \x27" ++ cs ++ "\x27 to \x27" ++
    ns ++ "\x27"

/-- handlers/update_inquiry_status.ts: look the inquiry up, refuse a
backwards move under statusOrder, then write status + updated_at. -/
def updateInquiryStatus (input : UpdateInquiryStatusInput) (db : DB) :
    Except String (Inquiry × DB) :=
  match db.inquiries.filter (fun i => i.id == input.id) with
  | [] => .error ("Inquiry with id " ++ toString input.id ++ " not found")
  | cur :: _ =>
    let currentStatus := cur.status
    let newStatus := input.status
    let currentIndex := statusIndex currentStatus
    let newIndex := statusIndex newStatus
    if newIndex < currentIndex then
      .error (transitionErrorMsg currentStatus newStatus)
    else
      let inquiries' := db.inquiries.map (fun i =>
        if i.id == input.id then
          { i with status := input.status, updated_at := db.now }
        else i)
      .ok ({ cur with status := input.status, updated_at := db.now },
           { db with inquiries := inquiries' })

/-- The junction rows inserted by the bulk fan-out of createInquiry: one row
per listed supplier id, with consecutive serial ids. -/
def mkInquirySupplierRows : List Nat → Nat → Nat → Nat → List InquirySupplier
  | [], _, _, _ => []
  | s :: rest, rowId, inqId, now =>
    { id := rowId, inquiry_id := inqId, supplier_id := s, sent_at := now } ::
      mkInquirySupplierRows rest (rowId + 1) inqId now

/-- index.ts createInquiry: validate the buyer (exists, role buyer), bulk
validate the listed suppliers (the inArray select returns each matching row
once, so its row count is compared with the length of the id list), insert
the inquiry with status pending, then insert one inquiry_suppliers row per
listed supplier id. -/
def createInquiry (input : CreateInquiryInput) (db : DB) :
    Except String (Inquiry × DB) :=
  match db.users.filter (fun u => u.id == input.buyer_id) with
  | [] => .error "Buyer not found"
  | buyer0 :: _ =>
    if buyer0.role != Role.buyer then .error "User is not a buyer"
    else
      let suppliers := db.users.filter (fun u => input.supplier_ids.contains u.id)
      if input.supplier_ids.length > 0 &&
          suppliers.length != input.supplier_ids.length then
        .error "One or more suppliers not found"
      else if input.supplier_ids.length > 0 &&
          (suppliers.filter (fun s => s.role != Role.supplier)).length > 0 then
        .error "One or more users are not suppliers"
      else
        let inquiry : Inquiry :=
          { id := db.nextId
            buyer_id := input.buyer_id
            packaging_type := input.packaging_type
            material := input.material
            quantity := input.quantity
            personalization_needed := input.personalization_needed
            description := input.description
            budget_min := input.budget_min.map (fun r => toString r)
            budget_max := input.budget_max.map (fun r => toString r)
            delivery_deadline := input.delivery_deadline
            status := .pending
            created_at := db.now
            updated_at := db.now }
        let fanout :=
          mkInquirySupplierRows input.supplier_ids (db.nextId + 1) inquiry.id db.now
        .ok (inquiry,
             { db with
                inquiries := db.inquiries ++ [inquiry]
                inquirySuppliers := db.inquirySuppliers ++ fanout
                nextId := db.nextId + 1 + input.supplier_ids.length })

/-- handlers/create_quote.ts: validate supplier (exists, role supplier),
inquiry existence, and that the supplier appears in the inquiry's
inquiry_suppliers set; insert the quote; then flip the inquiry status to
responded when the status read at validation time was pending. -/
def createQuote (input : CreateQuoteInput) (db : DB) :
    Except String (Quote × DB) :=
  match db.users.filter (fun u => u.id == input.supplier_id) with
  | [] => .error ("Supplier with ID " ++ toString input.supplier_id ++ " not found")
  | supplier0 :: _ =>
    if supplier0.role != Role.supplier then
      .error ("User with ID " ++ toString input.supplier_id ++ " is not a supplier")
    else
      match db.inquiries.filter (fun i => i.id == input.inquiry_id) with
      | [] => .error ("Inquiry with ID " ++ toString input.inquiry_id ++ " not found")
      | inquiry0 :: _ =>
        if (db.inquirySuppliers.filter (fun r =>
              r.inquiry_id == input.inquiry_id &&
              r.supplier_id == input.supplier_id)).isEmpty then
          .error ("Supplier " ++ toString input.supplier_id ++
            " was not sent inquiry " ++ toString input.inquiry_id)
        else
          let quote : Quote :=
            { id := db.nextId
              inquiry_id := input.inquiry_id
              supplier_id := input.supplier_id
              price_per_unit := toString input.price_per_unit
              total_price := toString input.total_price
              delivery_time_days := input.delivery_time_days
              notes := input.notes
              created_at := db.now }
          let db1 := { db with
            quotes := db.quotes ++ [quote]
            nextId := db.nextId + 1 }
          let db2 :=
            if inquiry0.status = InquiryStatus.pending then
              { db1 with inquiries := db1.inquiries.map (fun i =>
                  if i.id == input.inquiry_id then
                    { i with status := .responded, updated_at := db.now }
                  else i) }
            else db1
          .ok (quote, db2)

/-- handlers/mark_message_as_read.ts: find the message, require the caller
to be the recipient, return already-read messages unchanged, otherwise set
read_at on the rows matching (id, recipient, read_at null). -/
def markMessageAsRead (messageId : Nat) (userId : Nat) (db : DB) :
    Except String (Message × DB) :=
  match db.messages.filter (fun m => m.id == messageId) with
  | [] => .error "Message not found"
  | message :: _ =>
    if message.recipient_id != userId then
      .error "User is not authorized to mark this message as read"
    else if message.read_at != none then
      .ok (message, db)
    else
      let upd := fun (m : Message) =>
        if m.id == messageId && m.recipient_id == userId && m.read_at == none then
          { m with read_at := some db.now }
        else m
      let result := (db.messages.filter (fun m =>
        m.id == messageId && m.recipient_id == userId && m.read_at == none)).map upd
      match result with
      | [] => .error "Failed to mark message as read"
      | updated :: _ =>
        .ok (updated, { db with messages := db.messages.map upd })

/-- handlers/create_rating.ts: the union select of the rater row and the
rated row (deduplicated, as SQL UNION is) must return two rows; rater and
rated must have different roles; with an inquiry id, the inquiry must exist
and the (rater, rated, inquiry) triple must be new; then insert. -/
def createRating (input : CreateRatingInput) (db : DB) :
    Except String (Rating × DB) :=
  let users := db.users.filter (fun u =>
    u.id == input.rater_id || u.id == input.rated_id)
  if users.length != 2 then .error "One or both users do not exist"
  else
    match users.find? (fun u => u.id == input.rater_id),
          users.find? (fun u => u.id == input.rated_id) with
    | some rater, some rated =>
      if rater.role = rated.role then
        .error "Rater and rated users must have different roles (buyer <-> supplier)"
      else
        let dupCheck : Except String Unit :=
          match input.inquiry_id with
          | none => .ok ()
          | some inqId =>
            if (db.inquiries.filter (fun i => i.id == inqId)).isEmpty then
              .error "Inquiry does not exist"
            else if !(db.ratings.filter (fun r =>
                r.rater_id == input.rater_id &&
                r.rated_id == input.rated_id &&
                r.inquiry_id == some inqId)).isEmpty then
              .error "Rating already exists for this inquiry between these users"
            else .ok ()
        match dupCheck with
        | .error e => .error e
        | .ok _ =>
          let rating : Rating :=
            { id := db.nextId
              rater_id := input.rater_id
              rated_id := input.rated_id
              inquiry_id := input.inquiry_id
              rating := input.rating
              comment := input.comment
              created_at := db.now }
          .ok (rating, { db with
            ratings := db.ratings ++ [rating]
            nextId := db.nextId + 1 })
    | _, _ => .error "User validation failed"

/-- The characters JavaScript String.trim strips (the embedding of .trim()
below uses this explicit whitespace test so that it evaluates). -/
def isWhiteChar (c : Char) : Bool :=
  c == ' ' || c == '\t' || c == '\n' || c == '\r'

/-- JavaScript String.prototype.trim: strip leading and trailing
whitespace. -/
def strTrim (s : String) : String :=
  ⟨((s.data.dropWhile isWhiteChar).reverse.dropWhile isWhiteChar).reverse⟩

/-- The MIME allow-list of upload_file_attachment.ts. -/
def ALLOWED_MIME_TYPES : List String :=
  [ "application/pdf"
  , "image/jpeg"
  , "image/png"
  , "image/gif"
  , "application/msword"
  , "application/vnd.openxmlformats-officedocument.wordprocessingml.document"
  , "application/vnd.ms-excel"
  , "application/vnd.openxmlformats-officedocument.spreadsheetml.sheet"
  , "text/plain"
  , "text/csv" ]

/-- 10MB bound of upload_file_attachment.ts. -/
def MAX_FILE_SIZE : Int := 10 * 1024 * 1024

/-- JavaScript truthiness of an optional numeric id: undefined and 0 are
both falsy. -/
def truthyId : Option Nat → Bool
  | none => false
  | some i => i != 0

/-- handlers/upload_file_attachment.ts. Presence of the optional ids is
tested with !inquiryId / !messageId, i.e. truthiness, and the persisted
value is inquiryId || null, so an id of 0 is stored as null. -/
def uploadFileAttachment (filename filePath : String) (fileSize : Int)
    (mimeType : String) (inquiryId messageId : Option Nat) (db : DB) :
    Except String (FileAttachment × DB) :=
  if !truthyId inquiryId && !truthyId messageId then
    .error "Either inquiry_id or message_id must be provided"
  else if fileSize <= 0 then
    .error "File size must be greater than 0"
  else if fileSize > MAX_FILE_SIZE then
    .error "File size exceeds maximum allowed size of 10MB"
  else if !(ALLOWED_MIME_TYPES.contains mimeType) then
    .error ("File type " ++ mimeType ++ " is not allowed")
  else if filename == "" || (strTrim filename).length == 0 then
    .error "Filename cannot be empty"
  else if filePath == "" || (strTrim filePath).length == 0 then
    .error "File path cannot be empty"
  else if truthyId inquiryId &&
      (db.inquiries.filter (fun i => some i.id == inquiryId)).isEmpty then
    .error ("Inquiry with id " ++ toString (inquiryId.getD 0) ++ " not found")
  else if truthyId messageId &&
      (db.messages.filter (fun m => some m.id == messageId)).isEmpty then
    .error ("Message with id " ++ toString (messageId.getD 0) ++ " not found")
  else
    let attachment : FileAttachment :=
      { id := db.nextId
        inquiry_id := if truthyId inquiryId then inquiryId else none
        message_id := if truthyId messageId then messageId else none
        filename := (strTrim filename)
        file_path := (strTrim filePath)
        file_size := fileSize
        mime_type := mimeType
        uploaded_at := db.now }
    .ok (attachment, { db with
      fileAttachments := db.fileAttachments ++ [attachment]
      nextId := db.nextId + 1 })

/-- The updateData object built by update_user_profile.ts: a Partial row,
always carrying updated_at, plus each patch field that is present in the
input. -/
structure UserUpdateData where
  company_name : Option String
  contact_person : Option String
  phone : Option (Option String)
  location : Option String
  description : Option (Option String)
  website : Option (Option String)
  updated_at : Option Nat
deriving DecidableEq, Repr

/-- Applying a Partial row to a user row: every column present in the
Partial is overwritten, every absent column keeps its value. -/
def applyUserUpdate (d : UserUpdateData) (u : User) : User :=
  { u with
    company_name := d.company_name.getD u.company_name
    contact_person := d.contact_person.getD u.contact_person
    phone := d.phone.getD u.phone
    location := d.location.getD u.location
    description := d.description.getD u.description
    website := d.website.getD u.website
    updated_at := d.updated_at.getD u.updated_at }

/-- update_user_profile.ts: check the user exists, build updateData from the
present input fields (always including updated_at), update the matching
rows. -/
def updateUserProfile (input : UpdateUserInput) (db : DB) :
    Except String (User × DB) :=
  match db.users.filter (fun u => u.id == input.id) with
  | [] => .error ("User with id " ++ toString input.id ++ " not found")
  | existing :: _ =>
    let updateData : UserUpdateData :=
      { company_name := input.company_name
        contact_person := input.contact_person
        phone := input.phone
        location := input.location
        description := input.description
        website := input.website
        updated_at := some db.now }
    .ok (applyUserUpdate updateData existing,
         { db with users := db.users.map (fun u =>
             if u.id == input.id then applyUserUpdate updateData u else u) })

/-- handlers/search_suppliers.ts as shipped: the placeholder body, which
ignores its input and returns no rows. -/
def searchSuppliers (_input : SearchSuppliersInput) (_db : DB) : List User :=
  []

/-- Case-sensitive substring test, for the location filter of the supplier
search specification. -/
def strContains (hay needle : String) : Bool :=
  if needle == "" then true else (hay.splitOn needle).length != 1

/-- Modelled from the spec: the intended searchSuppliers behaviour that the
shipped placeholder omits (spec 4.8): a pure read returning the supplier
users joined with a supplier profile, keeping exactly those whose profile
satisfies every supplied filter, all filters combined as a logical AND. -/
def searchSuppliersSpec (input : SearchSuppliersInput) (db : DB) : List User :=
  db.users.filter (fun u =>
    u.role == Role.supplier &&
    (db.supplierProfiles.filter (fun p =>
      p.user_id == u.id &&
      (match input.packaging_types with
       | none => true
       | some ts => ts.all (fun t => p.packaging_types.contains t)) &&
      (match input.materials with
       | none => true
       | some ms => ms.all (fun m => p.materials.contains m)) &&
      (match input.location with
       | none => true
       | some loc => strContains u.location loc) &&
      (match input.max_min_order_quantity with
       | none => true
       | some q => p.min_order_quantity ≤ q) &&
      (match input.personalization_required with
       | none => true
       | some b => p.personalization_available == b) &&
      (match input.certifications with
       | none => true
       | some cs => cs.all (fun c => p.certifications.contains c)) &&
      (match input.price_range_max with
       | none => true
       | some mx =>
         match p.price_range_min with
         | none => true
         | some pm => pm ≤ mx) &&
      (match input.delivery_time_max_days with
       | none => true
       | some d => p.delivery_time_days ≤ d)) |>.isEmpty |> (!·)))

/-- A sample buyer. -/
def uBuyer : User :=
  { id := 1, email := "buyer@example.com", password_hash := "h1"
    company_name := "BuyCo", contact_person := "Bea", phone := none
    role := .buyer, location := "Prague", description := none
    website := none, created_at := 0, updated_at := 0 }

/-- A sample supplier. -/
def uSupplier : User :=
  { id := 2, email := "sup@example.com", password_hash := "h2"
    company_name := "SupCo", contact_person := "Sam", phone := none
    role := .supplier, location := "Brno", description := none
    website := none, created_at := 0, updated_at := 0 }

/-- A second sample supplier. -/
def uSupplier2 : User :=
  { id := 3, email := "sup2@example.com", password_hash := "h3"
    company_name := "SupCo2", contact_person := "Sue", phone := none
    role := .supplier, location := "Ostrava", description := none
    website := none, created_at := 0, updated_at := 0 }

/-- A sample pending inquiry of the buyer. -/
def inqPending : Inquiry :=
  { id := 10, buyer_id := 1, packaging_type := .boxes, material := .cardboard
    quantity := 100, personalization_needed := false, description := "boxes"
    budget_min := none, budget_max := none, delivery_deadline := none
    status := .pending, created_at := 0, updated_at := 0 }

/-- The same inquiry already responded. -/
def inqResponded : Inquiry := { inqPending with id := 11, status := .responded }

/-- Fan-out row: inquiry 10 was sent to supplier 2. -/
def linkRow : InquirySupplier :=
  { id := 20, inquiry_id := 10, supplier_id := 2, sent_at := 0 }

/-- An unread message from the buyer to the supplier. -/
def msgUnread : Message :=
  { id := 30, sender_id := 1, recipient_id := 2, inquiry_id := none
    subject := "hi", content := "hello", sent_at := 0, read_at := none }

/-- A store holding the sample rows. -/
def sampleDb : DB :=
  { users := [uBuyer, uSupplier, uSupplier2]
    supplierProfiles := []
    inquiries := [inqPending, inqResponded]
    inquirySuppliers := [linkRow]
    quotes := []
    messages := [msgUnread]
    fileAttachments := []
    ratings := []
    nextId := 100
    now := 7 }

/-- The sample quote submission: supplier 2 quotes on inquiry 10. -/
def qIn : CreateQuoteInput :=
  { inquiry_id := 10, supplier_id := 2, price_per_unit := 5
    total_price := 500, delivery_time_days := 14, notes := none }

/-- The quote row produced by the sample submission. -/
def qOutQuote : Quote :=
  match createQuote qIn sampleDb with
  | .ok (q, _) => q
  | .error _ => { id := 0, inquiry_id := 0, supplier_id := 0
                  price_per_unit := "", total_price := ""
                  delivery_time_days := 0, notes := none, created_at := 0 }

/-- The store produced by the sample submission. -/
def qOutDb : DB :=
  match createQuote qIn sampleDb with
  | .ok (_, d) => d
  | .error _ => sampleDb

/-- The sample patch: rename the buyer's company, touch nothing else. -/
def patchIn : UpdateUserInput :=
  { id := 1, company_name := some "NewCo", contact_person := none
    phone := none, location := none, description := none, website := none }

/-- The rating row inserted by create_rating.ts once every check passes. -/
def insertedRating (input : CreateRatingInput) (db : DB) : Rating :=
  { id := db.nextId
    rater_id := input.rater_id
    rated_id := input.rated_id
    inquiry_id := input.inquiry_id
    rating := input.rating
    comment := input.comment
    created_at := db.now }

/-- The store after create_rating.ts inserts its row. -/
def ratingInsertedDb (input : CreateRatingInput) (db : DB) : DB :=
  { db with
    ratings := db.ratings ++ [insertedRating input db]
    nextId := db.nextId + 1 }

/-- An existing rating of supplier 2 by buyer 1 on inquiry 10. -/
def ratingRow : Rating :=
  { id := 40, rater_id := 1, rated_id := 2, inquiry_id := some 10
    rating := 4, comment := none, created_at := 0 }

/-- The sample store with that rating already present. -/
def ratedDb : DB := { sampleDb with ratings := [ratingRow] }

/-- The duplicate rating attempt: same rater, rated and inquiry. -/
def rIn : CreateRatingInput :=
  { rater_id := 1, rated_id := 2, inquiry_id := some 10
    rating := 5, comment := none }

/-- Whether a handler result is an error. -/
def isErr {α : Type} : Except String α → Bool
  | .error _ => true
  | .ok _ => false

/-- The attachment row inserted by upload_file_attachment.ts once every
check passes: ids are persisted as id || null, names trimmed. -/
def insertedAttachment (filename filePath : String) (fileSize : Int)
    (mimeType : String) (inquiryId messageId : Option Nat)
    (db : DB) : FileAttachment :=
  { id := db.nextId
    inquiry_id := if truthyId inquiryId then inquiryId else none
    message_id := if truthyId messageId then messageId else none
    filename := (strTrim filename)
    file_path := (strTrim filePath)
    file_size := fileSize
    mime_type := mimeType
    uploaded_at := db.now }

/-- The store after upload_file_attachment.ts inserts its row. -/
def attachmentInsertedDb (filename filePath : String) (fileSize : Int)
    (mimeType : String) (inquiryId messageId : Option Nat)
    (db : DB) : DB :=
  { db with
    fileAttachments := db.fileAttachments ++
      [insertedAttachment filename filePath fileSize mimeType
        inquiryId messageId db]
    nextId := db.nextId + 1 }

/-- The inquiry row inserted by createInquiry once every check passes. -/
def insertedInquiry (input : CreateInquiryInput) (db : DB) : Inquiry :=
  { id := db.nextId
    buyer_id := input.buyer_id
    packaging_type := input.packaging_type
    material := input.material
    quantity := input.quantity
    personalization_needed := input.personalization_needed
    description := input.description
    budget_min := input.budget_min.map (fun r => toString r)
    budget_max := input.budget_max.map (fun r => toString r)
    delivery_deadline := input.delivery_deadline
    status := .pending
    created_at := db.now
    updated_at := db.now }

/-- The store after createInquiry inserts the inquiry and its fan-out. -/
def inquiryInsertedDb (input : CreateInquiryInput) (db : DB) : DB :=
  { db with
    inquiries := db.inquiries ++ [insertedInquiry input db]
    inquirySuppliers := db.inquirySuppliers ++
      mkInquirySupplierRows input.supplier_ids (db.nextId + 1) db.nextId db.now
    nextId := db.nextId + 1 + input.supplier_ids.length }

/-- An inquiry creation listing supplier 2 twice. -/
def cInDup : CreateInquiryInput :=
  { buyer_id := 1, packaging_type := .boxes, material := .cardboard
    quantity := 10, personalization_needed := false, description := "d"
    budget_min := none, budget_max := none, delivery_deadline := none
    supplier_ids := [2, 2] }

/-- The same inquiry creation with the duplicate-free list [2, 3]. -/
def cIn2 : CreateInquiryInput := { cInDup with supplier_ids := [2, 3] }

/-- The filterless supplier search. -/
def emptyFilters : SearchSuppliersInput :=
  { packaging_types := none, materials := none, location := none
    max_min_order_quantity := none, personalization_required := none
    certifications := none, price_range_max := none
    delivery_time_max_days := none }

/-- A capability profile for supplier 2. -/
def profRow : SupplierProfile :=
  { id := 50, user_id := 2, packaging_types := [.boxes]
    materials := [.cardboard], min_order_quantity := 100
    personalization_available := false, price_range_min := none
    price_range_max := none, delivery_time_days := 10
    certifications := [], created_at := 0, updated_at := 0 }

/-- The sample store with that profile present. -/
def searchDb : DB := { sampleDb with supplierProfiles := [profRow] }

section ListHelpers

variable {α : Type} {β : Type}

/-- In a table whose key column is duplicate-free, two rows with the same
key are the same row. -/
theorem key_inj {f : α → β} {l : List α} (h : (l.map f).Nodup)
    {u v : α} (hu : u ∈ l) (hv : v ∈ l) (hfe : f u = f v) : u = v :=
  List.inj_on_of_nodup_map h hu hv hfe

variable [BEq β] [LawfulBEq β]

/-- Selecting the rows whose key lies in a duplicate-free list of keys, each
of which is the key of some row, returns as many rows as there are keys
(this is the row count the bulk supplier validation of createInquiry
compares against the length of the id list). -/
theorem length_filter_contains {f : α → β} {l : List α} {ids : List β}
    (hl : (l.map f).Nodup) (hids : ids.Nodup)
    (hall : ∀ s ∈ ids, ∃ u, u ∈ l ∧ f u = s) :
    (l.filter (fun u => ids.contains (f u))).length = ids.length := by
  set kept := l.filter (fun u => ids.contains (f u)) with hkept
  have hsub : kept.map f ⊆ ids := by
    intro b hb
    rcases List.mem_map.mp hb with ⟨u, hu, rfl⟩
    have := List.of_mem_filter hu
    exact List.mem_of_elem_eq_true this
  have hsup : ids ⊆ kept.map f := by
    intro s hs
    rcases hall s hs with ⟨u, hu, hfu⟩
    have hmem : u ∈ kept := by
      apply List.mem_filter.mpr
      refine ⟨hu, ?_⟩
      exact List.elem_eq_true_of_mem (hfu ▸ hs)
    exact hfu ▸ List.mem_map_of_mem f hmem
  have hnk : (kept.map f).Nodup :=
    ((List.filter_sublist l).map f).nodup hl
  have h1 : (kept.map f).length ≤ ids.length :=
    (List.subperm_of_subset hnk hsub).length_le
  have h2 : ids.length ≤ (kept.map f).length :=
    (List.subperm_of_subset hids hsup).length_le
  have := le_antisymm h1 h2
  simpa using this

/-- Filtering after an update that does not change the filtered condition is
filtering before the update: the handler reads back the rows it updated. -/
theorem filter_map_comm {l : List α} (g : α → α) (p : α → Bool)
    (hg : ∀ x, p (g x) = p x) :
    (l.map g).filter p = (l.filter p).map g := by
  induction l with
  | nil => rfl
  | cons x xs ih =>
    by_cases hx : p x = true
    · rw [List.map_cons, List.filter_cons_of_pos (by rw [hg]; exact hx),
        List.filter_cons_of_pos hx, List.map_cons, ih]
    · rw [List.map_cons, List.filter_cons_of_neg (by rw [hg]; simpa using hx),
        List.filter_cons_of_neg (by simpa using hx), ih]

end ListHelpers

/-- Every fan-out row of createInquiry carries the new inquiry's id. -/
theorem mkInquirySupplierRows_inquiry_id (ids : List Nat) (rowId inqId now : Nat) :
    ∀ r ∈ mkInquirySupplierRows ids rowId inqId now, r.inquiry_id = inqId := by
  induction ids generalizing rowId with
  | nil => intro r hr; cases hr
  | cons s rest ih =>
    intro r hr
    rcases List.mem_cons.mp hr with rfl | hmem
    · rfl
    · exact ih (rowId + 1) r hmem

/-- createInquiry inserts one fan-out row per listed supplier id. -/
theorem mkInquirySupplierRows_length (ids : List Nat) (rowId inqId now : Nat) :
    (mkInquirySupplierRows ids rowId inqId now).length = ids.length := by
  induction ids generalizing rowId with
  | nil => rfl
  | cons s rest ih => simp [mkInquirySupplierRows, ih]

/-! Sample rows and stores used by the concrete-instance theorems. -/

/-- C2: updateInquiryStatus permits only forward or same-status moves under
the ordering [pending, responded, closed]: a nonexistent id gives the
not-found error regardless of the requested status (so prior to any
transition check); a same-status update succeeds, returning the row with its
status kept and the updated timestamp refreshed; a move to an earlier stage
gives the transition error naming both states (and, being an error, produces
no new store, leaving the status unchanged); and every successful update
stores a status whose stage index is at least the current one, so the stored
status is monotonically non-decreasing under this operation. -/
theorem updateInquiryStatus_forward_only
    (input : UpdateInquiryStatusInput) (db : DB) :
    ((∀ i ∈ db.inquiries, i.id ≠ input.id) →
      updateInquiryStatus input db =
        .error ("Inquiry with id " ++ toString input.id ++ " not found")) ∧
    (∀ cur rest, db.inquiries.filter (fun i => i.id == input.id) = cur :: rest →
      input.status = cur.status →
      updateInquiryStatus input db =
        .ok ({ cur with status := input.status, updated_at := db.now },
             { db with inquiries := db.inquiries.map (fun i =>
                 if i.id == input.id then
                   { i with status := input.status, updated_at := db.now }
                 else i) })) ∧
    (∀ cur rest, db.inquiries.filter (fun i => i.id == input.id) = cur :: rest →
      statusIndex input.status < statusIndex cur.status →
      updateInquiryStatus input db =
        .error (transitionErrorMsg cur.status input.status)) ∧
    (∀ cur rest r db',
      db.inquiries.filter (fun i => i.id == input.id) = cur :: rest →
      updateInquiryStatus input db = .ok (r, db') →
      r.status = input.status ∧ r.updated_at = db.now ∧
        statusIndex cur.status ≤ statusIndex input.status) := by
  refine ⟨?_, ?_, ?_, ?_⟩
  · intro hnone
    have hnil : db.inquiries.filter (fun i => i.id == input.id) = [] := by
      apply List.filter_eq_nil_iff.mpr
      intro i hi
      simpa using hnone i hi
    simp [updateInquiryStatus, hnil]
  · intro cur rest hfilter hsame
    rw [updateInquiryStatus, hfilter]
    simp [hsame]
  · intro cur rest hfilter hlt
    rw [updateInquiryStatus, hfilter]
    simp [hlt]
  · intro cur rest r db' hfilter hok
    rw [updateInquiryStatus, hfilter] at hok
    by_cases hlt : statusIndex input.status < statusIndex cur.status
    · simp [hlt] at hok
    · simp [hlt] at hok
      exact ⟨by rw [← hok.1], by rw [← hok.1], Nat.le_of_not_lt hlt⟩

/-- Concrete instance of updateInquiryStatus_forward_only: in the sample
store, moving inquiry 11 (responded) back to pending yields the transition
error naming both states. -/
theorem updateInquiryStatus_forward_only_witness :
    updateInquiryStatus { id := 11, status := .pending } sampleDb =
      .error (transitionErrorMsg .responded .pending) :=
  (updateInquiryStatus_forward_only { id := 11, status := .pending }
      sampleDb).2.2.1 inqResponded [] (by decide) (by decide)

/-- Anatomy of a successful createQuote: the junction table is untouched,
exactly the new quote row (for this inquiry and supplier) is appended, the
fan-out check was passed, and the inquiries table is rewritten only when the
inquiry's status read at validation time was pending. -/
theorem createQuote_ok_shape {input : CreateQuoteInput} {db : DB}
    {q : Quote} {db' : DB} (hok : createQuote input db = .ok (q, db')) :
    db'.inquirySuppliers = db.inquirySuppliers ∧
    db'.quotes = db.quotes ++ [q] ∧
    q.inquiry_id = input.inquiry_id ∧ q.supplier_id = input.supplier_id ∧
    (db.inquirySuppliers.filter (fun r =>
        r.inquiry_id == input.inquiry_id &&
        r.supplier_id == input.supplier_id)).isEmpty = false ∧
    (∀ inq rest,
      db.inquiries.filter (fun i => i.id == input.inquiry_id) = inq :: rest →
      db'.inquiries =
        if inq.status = .pending then
          db.inquiries.map (fun i =>
            if i.id == input.inquiry_id then
              { i with status := .responded, updated_at := db.now }
            else i)
        else db.inquiries) := by
  rw [createQuote] at hok
  split at hok
  · cases hok
  case _ supplier0 _ _ =>
  split at hok
  · cases hok
  split at hok
  · cases hok
  case _ inquiry0 tail heq =>
  split at hok
  · cases hok
  case _ hempty =>
  rcases Except.ok.inj hok with h2
  rcases Prod.mk.injEq _ _ _ _ ▸ h2 with ⟨hq, hdb⟩
  subst hq
  subst hdb
  refine ⟨?_, ?_, rfl, rfl, by simpa using hempty, ?_⟩
  · by_cases hp : inquiry0.status = InquiryStatus.pending <;> simp [hp]
  · by_cases hp : inquiry0.status = InquiryStatus.pending <;> simp [hp]
  · intro inq rest hfilter
    rw [heq] at hfilter
    have hinq : inq = inquiry0 := (List.cons.injEq _ _ _ _ ▸ hfilter.symm).1
    subst hinq
    by_cases hp : inq.status = InquiryStatus.pending <;> simp [hp]

/-- C3: for every successful createQuote call, the target inquiry's stored
status is set to responded if and only if it was pending at the time of the
call: the first row selected by the inquiry id afterwards is the pending row
flipped to responded (with a refreshed updated timestamp), while a quote
against an inquiry already responded or closed leaves the inquiries table
entirely unchanged — so the pending-to-responded flip happens exactly once
however many quotes are submitted. -/
theorem createQuote_flips_pending_iff
    (input : CreateQuoteInput) (db : DB) (q : Quote) (db' : DB)
    (inq : Inquiry) (rest : List Inquiry)
    (hok : createQuote input db = .ok (q, db'))
    (hfilter : db.inquiries.filter (fun i => i.id == input.inquiry_id) =
      inq :: rest) :
    (db'.inquiries.filter (fun i => i.id == input.inquiry_id)).head? =
      some (if inq.status = .pending
            then { inq with status := .responded, updated_at := db.now }
            else inq) ∧
    (inq.status ≠ .pending → db'.inquiries = db.inquiries) := by
  obtain ⟨-, -, -, -, -, hshape⟩ := createQuote_ok_shape hok
  have hdbinq := hshape inq rest hfilter
  have hpred : (inq.id == input.inquiry_id) = true := by
    have hmem : inq ∈ db.inquiries.filter (fun i => i.id == input.inquiry_id) := by
      rw [hfilter]; exact List.mem_cons_self _ _
    exact (List.mem_filter.mp hmem).2
  by_cases hp : inq.status = InquiryStatus.pending
  · rw [if_pos hp] at hdbinq
    constructor
    · have hg : ∀ x : Inquiry,
          (fun i => i.id == input.inquiry_id)
            ((fun i => if i.id == input.inquiry_id then
                { i with status := InquiryStatus.responded, updated_at := db.now }
              else i) x) =
          (fun i => i.id == input.inquiry_id) x := by
        intro x
        by_cases hx : (x.id == input.inquiry_id) = true <;> simp [hx]
      have hcomm := filter_map_comm
        (l := db.inquiries)
        (g := fun i => if i.id == input.inquiry_id then
            { i with status := InquiryStatus.responded, updated_at := db.now }
          else i)
        (p := fun i => i.id == input.inquiry_id) hg
      rw [hdbinq, hcomm, hfilter]
      simp only [List.map_cons, List.head?_cons]
      rw [if_pos hpred, if_pos hp]
    · intro hcon; exact absurd hp hcon
  · rw [if_neg hp] at hdbinq
    refine ⟨?_, fun _ => hdbinq⟩
    rw [hdbinq, hfilter]
    simp [hp]

/-- Concrete instance of createQuote_flips_pending_iff: quoting on the
pending inquiry 10 of the sample store flips exactly that inquiry to
responded. -/
theorem createQuote_flips_pending_iff_witness :
    (qOutDb.inquiries.filter (fun i => i.id == qIn.inquiry_id)).head? =
      some (if inqPending.status = .pending
            then { inqPending with status := .responded, updated_at := sampleDb.now }
            else inqPending) ∧
    (inqPending.status ≠ .pending → qOutDb.inquiries = sampleDb.inquiries) :=
  createQuote_flips_pending_iff qIn sampleDb qOutQuote qOutDb inqPending
    [] (by rfl) (by rfl)

/-- C8: createQuote creates a quote only for a supplier that the inquiry was
fanned out to. With an existing supplier of role supplier and an existing
inquiry, a supplier absent from the inquiry's inquiry_suppliers set is
rejected with the not-sent-this-inquiry error (and, being an error, no quote
row is written); and the invariant that every stored Quote's supplier
appears in that inquiry's InquirySupplier set is preserved by every
successful call. -/
theorem createQuote_requires_fanout (input : CreateQuoteInput) (db : DB) :
    (∀ sup srest inq irest,
      db.users.filter (fun u => u.id == input.supplier_id) = sup :: srest →
      sup.role = .supplier →
      db.inquiries.filter (fun i => i.id == input.inquiry_id) = inq :: irest →
      (∀ r ∈ db.inquirySuppliers,
        ¬(r.inquiry_id = input.inquiry_id ∧
          r.supplier_id = input.supplier_id)) →
      createQuote input db =
        .error ("Supplier " ++ toString input.supplier_id ++
          " was not sent inquiry " ++ toString input.inquiry_id)) ∧
    ((∀ qq ∈ db.quotes, ∃ r ∈ db.inquirySuppliers,
        r.inquiry_id = qq.inquiry_id ∧ r.supplier_id = qq.supplier_id) →
      ∀ q db', createQuote input db = .ok (q, db') →
      ∀ qq ∈ db'.quotes, ∃ r ∈ db'.inquirySuppliers,
        r.inquiry_id = qq.inquiry_id ∧ r.supplier_id = qq.supplier_id) := by
  constructor
  · intro sup srest inq irest hsup hrole hinq hnone
    have hnil : db.inquirySuppliers.filter (fun r =>
        r.inquiry_id == input.inquiry_id &&
        r.supplier_id == input.supplier_id) = [] := by
      apply List.filter_eq_nil_iff.mpr
      intro r hr hpred
      apply hnone r hr
      have h1 := (Bool.and_eq_true _ _).mp hpred
      exact ⟨beq_iff_eq.mp h1.1, beq_iff_eq.mp h1.2⟩
    rw [createQuote, hsup]
    simp [hrole, hinq, hnil]
  · intro hinv q db' hok qq hq
    obtain ⟨hjun, hqs, hqi, hqsid, hempty, -⟩ := createQuote_ok_shape hok
    rw [hqs] at hq
    rw [hjun]
    rcases List.mem_append.mp hq with hold | hnew
    · exact hinv qq hold
    · have hqq : qq = q := List.mem_singleton.mp hnew
      subst hqq
      have hne : db.inquirySuppliers.filter (fun r =>
          r.inquiry_id == input.inquiry_id &&
          r.supplier_id == input.supplier_id) ≠ [] := by
        intro hcon
        rw [hcon] at hempty
        simp at hempty
      rcases List.exists_mem_of_ne_nil _ hne with ⟨r, hrmem⟩
      have hr := List.mem_filter.mp hrmem
      have hpred := (Bool.and_eq_true _ _).mp hr.2
      exact ⟨r, hr.1,
        by rw [beq_iff_eq.mp hpred.1, hqi],
        by rw [beq_iff_eq.mp hpred.2, hqsid]⟩

/-- Concrete instance of createQuote_requires_fanout: inquiry 11 of the
sample store was not fanned out to supplier 2, so the quote is rejected. -/
theorem createQuote_requires_fanout_witness :
    createQuote
      { inquiry_id := 11, supplier_id := 2, price_per_unit := 5
        total_price := 500, delivery_time_days := 14, notes := none }
      sampleDb =
      .error ("Supplier " ++ toString (2 : Nat) ++
        " was not sent inquiry " ++ toString (11 : Nat)) :=
  (createQuote_requires_fanout
      { inquiry_id := 11, supplier_id := 2, price_per_unit := 5
        total_price := 500, delivery_time_days := 14, notes := none }
      sampleDb).1 uSupplier [] inqResponded []
    (by rfl) (by decide) (by rfl) (by decide)

/-- Sharpening the first-match of the message-id select to the three-way
WHERE condition of the mark-as-read UPDATE: when the first row carrying the
message id is the recipient's unread row, it is also the first row matched
by the UPDATE. -/
theorem head_filter_triple {l : List Message} {mid uid : Nat}
    {m : Message} {rest : List Message}
    (h : l.filter (fun x => x.id == mid) = m :: rest)
    (hrec : (m.recipient_id == uid) = true)
    (hread : (m.read_at == none) = true) :
    ∃ rest2, l.filter (fun x =>
      x.id == mid && x.recipient_id == uid && x.read_at == none) =
        m :: rest2 := by
  induction l with
  | nil => cases h
  | cons x xs ih =>
    simp only [List.filter_cons] at h ⊢
    by_cases hx : (x.id == mid) = true
    · rw [if_pos hx] at h
      have hxm : x = m := (List.cons.injEq _ _ _ _ ▸ h).1
      subst hxm
      refine ⟨xs.filter (fun y =>
        y.id == mid && y.recipient_id == uid && y.read_at == none), ?_⟩
      rw [if_pos (by simp [hx, hrec, hread])]
    · rw [if_neg hx] at h
      rcases ih h with ⟨rest2, hrest2⟩
      refine ⟨rest2, ?_⟩
      rw [if_neg (by simp [hx]), hrest2]

/-- The already-read fast path of mark_message_as_read.ts: when the first
row carrying the message id belongs to the caller and has a read timestamp,
the handler returns that row and the untouched store. -/
theorem markMessageAsRead_already_read {messageId userId : Nat} {db : DB}
    {m : Message} {rest : List Message} {t : Nat}
    (hfilter : db.messages.filter (fun x => x.id == messageId) = m :: rest)
    (hrec : m.recipient_id = userId) (hread : m.read_at = some t) :
    markMessageAsRead messageId userId db = .ok (m, db) := by
  rw [markMessageAsRead, hfilter]
  simp [hrec, hread]

/-- C4: markMessageAsRead succeeds only when the message exists and the
caller is exactly the recipient: a missing message id gives the not-found
error, a caller other than the recipient (sender or third party) gives the
unauthorized error, an already-read message is returned unchanged with no
timestamp overwrite, and a repeated call after any successful call returns
the very same message — hence the same read_at value — and the same store,
so duplicate calls by the recipient converge on one read timestamp. -/
theorem markMessageAsRead_recipient_idempotent
    (messageId userId : Nat) (db : DB) :
    ((∀ m ∈ db.messages, m.id ≠ messageId) →
      markMessageAsRead messageId userId db = .error "Message not found") ∧
    (∀ m rest, db.messages.filter (fun x => x.id == messageId) = m :: rest →
      m.recipient_id ≠ userId →
      markMessageAsRead messageId userId db =
        .error "User is not authorized to mark this message as read") ∧
    (∀ m rest t, db.messages.filter (fun x => x.id == messageId) = m :: rest →
      m.recipient_id = userId → m.read_at = some t →
      markMessageAsRead messageId userId db = .ok (m, db)) ∧
    (∀ m1 db1, markMessageAsRead messageId userId db = .ok (m1, db1) →
      markMessageAsRead messageId userId db1 = .ok (m1, db1)) := by
  refine ⟨?_, ?_, ?_, ?_⟩
  · intro hnone
    have hnil : db.messages.filter (fun x => x.id == messageId) = [] := by
      apply List.filter_eq_nil_iff.mpr
      intro m hm
      simpa using hnone m hm
    simp [markMessageAsRead, hnil]
  · intro m rest hfilter hrec
    rw [markMessageAsRead, hfilter]
    simp [hrec]
  · intro m rest t hfilter hrec hread
    exact markMessageAsRead_already_read hfilter hrec hread
  · intro m1 db1 hok
    simp only [markMessageAsRead] at hok
    split at hok
    · cases hok
    case _ m rest heq =>
    split at hok
    · cases hok
    case _ hrec =>
    have hmid : (m.id == messageId) = true := by
      have hmem : m ∈ db.messages.filter (fun x => x.id == messageId) := by
        rw [heq]; exact List.mem_cons_self _ _
      exact (List.mem_filter.mp hmem).2
    have hrecb : (m.recipient_id == userId) = true := by
      simpa using hrec
    by_cases hread : m.read_at = none
    · rw [if_neg (by simp [hread])] at hok
      rcases head_filter_triple heq hrecb (by simp [hread]) with ⟨rest2, htrip⟩
      rw [htrip] at hok
      simp only [List.map_cons] at hok
      rw [if_pos (by simp [hmid, hrecb, hread])] at hok
      have h2 := Except.ok.inj hok
      have hm1 := (Prod.mk.injEq _ _ _ _ ▸ h2).1
      have hdb1 := (Prod.mk.injEq _ _ _ _ ▸ h2).2
      have hg : ∀ x : Message,
          (fun y => y.id == messageId)
            ((fun y => if y.id == messageId && y.recipient_id == userId &&
                  y.read_at == none then { y with read_at := some db.now }
                else y) x) =
          (fun y => y.id == messageId) x := by
        intro x
        by_cases hc : (x.id == messageId && x.recipient_id == userId &&
            x.read_at == none) = true <;> simp [hc]
      have hcomm := filter_map_comm
        (l := db.messages)
        (g := fun y => if y.id == messageId && y.recipient_id == userId &&
            y.read_at == none then { y with read_at := some db.now } else y)
        (p := fun y => y.id == messageId) hg
      have hmsgs : db1.messages = db.messages.map
          (fun y => if y.id == messageId && y.recipient_id == userId &&
              y.read_at == none then { y with read_at := some db.now }
            else y) := by
        rw [← hdb1]
      have hfilter1 : db1.messages.filter (fun x => x.id == messageId) =
          { m with read_at := some db.now } ::
            rest.map (fun y => if y.id == messageId &&
                y.recipient_id == userId && y.read_at == none then
                { y with read_at := some db.now } else y) := by
        rw [hmsgs, hcomm, heq, List.map_cons,
          if_pos (by simp [hmid, hrecb, hread])]
      have hsecond := markMessageAsRead_already_read hfilter1
        (beq_iff_eq.mp hrecb) rfl
      rw [hsecond, ← hm1]
    · rw [if_pos (by simp [Option.ne_none_iff_exists] at hread ⊢; tauto)] at hok
      have h2 := Except.ok.inj hok
      have hm1 := (Prod.mk.injEq _ _ _ _ ▸ h2).1
      have hdb1 := (Prod.mk.injEq _ _ _ _ ▸ h2).2
      rcases Option.ne_none_iff_exists.mp hread with ⟨t, ht⟩
      have hsecond := markMessageAsRead_already_read (hdb1 ▸ heq)
        (beq_iff_eq.mp hrecb) ht.symm
      rw [hsecond, ← hm1, ← hdb1]

/-- Concrete instance of markMessageAsRead_recipient_idempotent: in the
sample store the sender (user 1) of message 30 may not mark it read. -/
theorem markMessageAsRead_recipient_idempotent_witness :
    markMessageAsRead 30 1 sampleDb =
      .error "User is not authorized to mark this message as read" :=
  (markMessageAsRead_recipient_idempotent 30 1 sampleDb).2.1 msgUnread []
    (by rfl) (by decide)

/-- C9: updateUserProfile on an existing user changes exactly the fields
present in the input — each present field takes the input value, each
omitted field keeps its prior value — plus a refreshed updated timestamp;
the user's email, password hash, role, id and creation timestamp are never
changed; rows of other users are untouched; and an unknown user id is
rejected with the not-found error. -/
theorem updateUserProfile_partial_patch (input : UpdateUserInput) (db : DB) :
    ((∀ u ∈ db.users, u.id ≠ input.id) →
      updateUserProfile input db =
        .error ("User with id " ++ toString input.id ++ " not found")) ∧
    (∀ u rest, db.users.filter (fun x => x.id == input.id) = u :: rest →
      ∃ r db', updateUserProfile input db = .ok (r, db') ∧
        r.company_name = input.company_name.getD u.company_name ∧
        r.contact_person = input.contact_person.getD u.contact_person ∧
        r.phone = input.phone.getD u.phone ∧
        r.location = input.location.getD u.location ∧
        r.description = input.description.getD u.description ∧
        r.website = input.website.getD u.website ∧
        r.updated_at = db.now ∧
        r.id = u.id ∧ r.email = u.email ∧
        r.password_hash = u.password_hash ∧
        r.role = u.role ∧ r.created_at = u.created_at ∧
        (∀ x ∈ db.users, x.id ≠ input.id → x ∈ db'.users)) := by
  constructor
  · intro hnone
    have hnil : db.users.filter (fun x => x.id == input.id) = [] := by
      apply List.filter_eq_nil_iff.mpr
      intro u hu
      simpa using hnone u hu
    simp [updateUserProfile, hnil]
  · intro u rest hfilter
    rw [updateUserProfile, hfilter]
    refine ⟨_, _, rfl, ?_, ?_, ?_, ?_, ?_, ?_, ?_, ?_, ?_, ?_, ?_, ?_, ?_⟩
    all_goals first
      | rfl
      | (intro x hx hneq
         refine List.mem_map.mpr ⟨x, hx, ?_⟩
         simp [hneq])

/-- Concrete instance of updateUserProfile_partial_patch: patching only the
company name of user 1 in the sample store keeps every other field. -/
theorem updateUserProfile_partial_patch_witness :
    ∃ r db', updateUserProfile patchIn sampleDb = .ok (r, db') ∧
      r.company_name = patchIn.company_name.getD uBuyer.company_name ∧
      r.contact_person = patchIn.contact_person.getD uBuyer.contact_person ∧
      r.phone = patchIn.phone.getD uBuyer.phone ∧
      r.location = patchIn.location.getD uBuyer.location ∧
      r.description = patchIn.description.getD uBuyer.description ∧
      r.website = patchIn.website.getD uBuyer.website ∧
      r.updated_at = sampleDb.now ∧
      r.id = uBuyer.id ∧ r.email = uBuyer.email ∧
      r.password_hash = uBuyer.password_hash ∧
      r.role = uBuyer.role ∧ r.created_at = uBuyer.created_at ∧
      (∀ x ∈ sampleDb.users, x.id ≠ patchIn.id → x ∈ db'.users) :=
  (updateUserProfile_partial_patch patchIn sampleDb).2 uBuyer [] (by rfl)

/-- find? of the unique row satisfying a test. -/
theorem find?_unique {α : Type} {l : List α} {p : α → Bool} {u : α}
    (hu : u ∈ l) (hpu : p u = true)
    (huniq : ∀ x ∈ l, p x = true → x = u) : l.find? p = some u := by
  induction l with
  | nil => cases hu
  | cons x xs ih =>
    by_cases hx : p x = true
    · rw [List.find?_cons_of_pos _ hx]
      rw [huniq x (List.mem_cons_self _ _) hx]
    · rw [List.find?_cons_of_neg _ (by simpa using hx)]
      have hne : u ≠ x := fun hcon => hx (hcon ▸ hpu)
      have humem : u ∈ xs := by
        rcases List.mem_cons.mp hu with rfl | hmem
        · exact absurd rfl hne
        · exact hmem
      exact ih humem (fun y hy hpy => huniq y (List.mem_cons_of_mem _ hy) hpy)

/-- The two-key select of create_rating.ts (the deduplicated UNION of the
rater row and the rated row) returns exactly two rows when both users exist
and their ids differ. -/
theorem filter_two_keys_length {α : Type} {f : α → Nat} {l : List α}
    (h : (l.map f).Nodup) {u v : α} (hu : u ∈ l) (hv : v ∈ l)
    {a b : Nat} (ha : f u = a) (hb : f v = b) (hab : a ≠ b) :
    (l.filter (fun x => f x == a || f x == b)).length = 2 := by
  set kept := l.filter (fun x => f x == a || f x == b) with hk
  have hsub : kept.map f ⊆ [a, b] := by
    intro c hc
    rcases List.mem_map.mp hc with ⟨x, hx, rfl⟩
    have hpx := (List.mem_filter.mp hx).2
    rcases Bool.or_eq_true _ _ |>.mp hpx with h1 | h1
    · simp [beq_iff_eq.mp h1]
    · simp [beq_iff_eq.mp h1]
  have hsup : [a, b] ⊆ kept.map f := by
    intro c hc
    have hcab : c = a ∨ c = b := by simpa using hc
    rcases hcab with rfl | rfl
    · refine ha ▸ List.mem_map_of_mem f ?_
      exact List.mem_filter.mpr ⟨hu, by simp [ha]⟩
    · refine hb ▸ List.mem_map_of_mem f ?_
      exact List.mem_filter.mpr ⟨hv, by simp [hb]⟩
  have hnk : (kept.map f).Nodup := ((List.filter_sublist l).map f).nodup h
  have hab2 : ([a, b] : List Nat).Nodup := by simp [hab]
  have h1 := (List.subperm_of_subset hnk hsub).length_le
  have h2 := (List.subperm_of_subset hab2 hsup).length_le
  have hlen : (kept.map f).length = 2 := by
    have := le_antisymm h1 h2
    simpa using this
  simpa using hlen

/-- C6: with both users present (under duplicate-free user ids) and of
differing roles, createRating with an inquiry id rejects the call when a
rating with the identical (rater, rated, inquiry) triple already exists
(leaving the store unchanged, as the error produces no new store), while
the same pair may rate a different inquiry — any existing inquiry with no
prior triple yields an inserted rating — and createRating without an
inquiry id always succeeds regardless of prior ratings between the pair. -/
theorem createRating_duplicate_guard (input : CreateRatingInput) (db : DB)
    (rater rated : User)
    (hnodup : (db.users.map User.id).Nodup)
    (hrmem : rater ∈ db.users) (hrid : rater.id = input.rater_id)
    (hdmem : rated ∈ db.users) (hdid : rated.id = input.rated_id)
    (hrole : rater.role ≠ rated.role) :
    (∀ inqId inq irest rr, input.inquiry_id = some inqId →
      db.inquiries.filter (fun i => i.id == inqId) = inq :: irest →
      rr ∈ db.ratings → rr.rater_id = input.rater_id →
      rr.rated_id = input.rated_id → rr.inquiry_id = some inqId →
      createRating input db =
        .error "Rating already exists for this inquiry between these users") ∧
    (∀ inqId inq irest, input.inquiry_id = some inqId →
      db.inquiries.filter (fun i => i.id == inqId) = inq :: irest →
      (∀ rr ∈ db.ratings, ¬(rr.rater_id = input.rater_id ∧
        rr.rated_id = input.rated_id ∧ rr.inquiry_id = some inqId)) →
      createRating input db =
        .ok (insertedRating input db, ratingInsertedDb input db)) ∧
    (input.inquiry_id = none →
      createRating input db =
        .ok (insertedRating input db, ratingInsertedDb input db)) := by
  have hidne : input.rater_id ≠ input.rated_id := by
    intro hcon
    apply hrole
    have heq : rater = rated :=
      key_inj hnodup hrmem hdmem (by rw [hrid, hdid, hcon])
    rw [heq]
  have hlen : (db.users.filter (fun u =>
      u.id == input.rater_id || u.id == input.rated_id)).length = 2 :=
    filter_two_keys_length hnodup hrmem hdmem hrid hdid hidne
  have hfind1 : (db.users.filter (fun u =>
      u.id == input.rater_id || u.id == input.rated_id)).find?
        (fun u => u.id == input.rater_id) = some rater := by
    apply find?_unique
    · exact List.mem_filter.mpr ⟨hrmem, by simp [hrid]⟩
    · simp [hrid]
    · intro x hx hpx
      exact key_inj hnodup (List.mem_filter.mp hx).1 hrmem
        (by rw [beq_iff_eq.mp hpx, hrid])
  have hfind2 : (db.users.filter (fun u =>
      u.id == input.rater_id || u.id == input.rated_id)).find?
        (fun u => u.id == input.rated_id) = some rated := by
    apply find?_unique
    · exact List.mem_filter.mpr ⟨hdmem, by simp [hdid]⟩
    · simp [hdid]
    · intro x hx hpx
      exact key_inj hnodup (List.mem_filter.mp hx).1 hdmem
        (by rw [beq_iff_eq.mp hpx, hdid])
  refine ⟨?_, ?_, ?_⟩
  · intro inqId inq irest rr hinq hfinq hrr h1 h2 h3
    have hdup : rr ∈ db.ratings.filter (fun r =>
        r.rater_id == input.rater_id && r.rated_id == input.rated_id &&
        r.inquiry_id == some inqId) :=
      List.mem_filter.mpr ⟨hrr, by simp [h1, h2, h3]⟩
    have hfalse : (db.ratings.filter (fun r =>
        r.rater_id == input.rater_id && r.rated_id == input.rated_id &&
        r.inquiry_id == some inqId)).isEmpty = false := by
      cases hlist : db.ratings.filter (fun r =>
          r.rater_id == input.rater_id && r.rated_id == input.rated_id &&
          r.inquiry_id == some inqId) with
      | nil => rw [hlist] at hdup; cases hdup
      | cons a as => rfl
    simp only [createRating, hlen, hfind1, hfind2, hinq, hfinq]
    rw [if_neg (by simp)]
    rw [if_neg hrole]
    rw [if_neg (by simp)]
    rw [if_pos (by simp [hfalse])]
  · intro inqId inq irest hinq hfinq hnone
    have hnil : db.ratings.filter (fun r =>
        r.rater_id == input.rater_id && r.rated_id == input.rated_id &&
        r.inquiry_id == some inqId) = [] := by
      apply List.filter_eq_nil_iff.mpr
      intro rr hrr hpred
      apply hnone rr hrr
      have hx := hpred
      simp only [Bool.and_eq_true, beq_iff_eq] at hx
      exact ⟨hx.1.1, hx.1.2, hx.2⟩
    simp only [createRating, insertedRating, ratingInsertedDb,
      hlen, hfind1, hfind2, hinq, hfinq]
    rw [if_neg (by simp)]
    rw [if_neg hrole]
    rw [if_neg (by simp)]
    rw [if_neg (by simp [hnil])]
  · intro hinq
    simp only [createRating, insertedRating, ratingInsertedDb,
      hlen, hfind1, hfind2, hinq]
    rw [if_neg (by simp)]
    rw [if_neg hrole]

/-- Concrete instance of createRating_duplicate_guard: repeating the
(1, 2, inquiry 10) rating in the sample store is rejected. -/
theorem createRating_duplicate_guard_witness :
    createRating rIn ratedDb =
      .error "Rating already exists for this inquiry between these users" :=
  (createRating_duplicate_guard rIn ratedDb uBuyer uSupplier
      (by decide) (by decide) (by decide) (by decide) (by decide)
      (by decide)).1
    10 inqPending [] ratingRow (by decide) (by rfl) (by decide) (by decide)
    (by decide) (by decide)

set_option maxHeartbeats 1000000 in
/-- Inverting a successful uploadFileAttachment: every validation passed
(at least one truthy id, positive size within the bound, allowed MIME type,
nonblank trimmed names, every truthily-referenced inquiry or message
present) and the result is exactly the inserted row and store. -/
theorem uploadFileAttachment_ok_inv {fn fp : String} {sz : Int} {mt : String}
    {inquiryId messageId : Option Nat} {db : DB} {a : FileAttachment} {db' : DB}
    (hok : uploadFileAttachment fn fp sz mt inquiryId messageId db =
      .ok (a, db')) :
    (truthyId inquiryId = true ∨ truthyId messageId = true) ∧
    0 < sz ∧ sz ≤ MAX_FILE_SIZE ∧
    ALLOWED_MIME_TYPES.contains mt = true ∧
    (strTrim fn).length ≠ 0 ∧ (strTrim fp).length ≠ 0 ∧
    (truthyId inquiryId = true →
      db.inquiries.filter (fun i => some i.id == inquiryId) ≠ []) ∧
    (truthyId messageId = true →
      db.messages.filter (fun m => some m.id == messageId) ≠ []) ∧
    a = insertedAttachment fn fp sz mt inquiryId messageId db ∧
    db' = attachmentInsertedDb fn fp sz mt inquiryId messageId db := by
  simp only [uploadFileAttachment] at hok
  split at hok
  · cases hok
  case _ h1 =>
  split at hok
  · cases hok
  case _ h2 =>
  split at hok
  · cases hok
  case _ h3 =>
  split at hok
  · cases hok
  case _ h4 =>
  split at hok
  · cases hok
  case _ h5 =>
  split at hok
  · cases hok
  case _ h6 =>
  split at hok
  · cases hok
  case _ h7 =>
  split at hok
  · cases hok
  case _ h8 =>
  have hinj := Except.ok.inj hok
  have ha := (Prod.mk.injEq _ _ _ _ ▸ hinj).1
  have hdb := (Prod.mk.injEq _ _ _ _ ▸ hinj).2
  simp only [Bool.not_eq_true, Bool.and_eq_true, Bool.not_eq_true'] at h1
  simp only [Bool.not_eq_true] at h4
  simp only [Bool.or_eq_true, beq_iff_eq, not_or] at h5 h6
  refine ⟨?_, by omega, by omega, by simpa using h4, ?_, ?_, ?_, ?_,
    ha.symm, hdb.symm⟩
  · by_cases hti : truthyId inquiryId = true
    · exact Or.inl hti
    · right
      by_cases htm : truthyId messageId = true
      · exact htm
      · exact absurd ⟨by simpa using hti, by simpa using htm⟩ h1
  · have := h5.2
    simpa using this
  · have := h6.2
    simpa using this
  · intro ht hcon
    rw [ht, hcon] at h7
    simp at h7
  · intro ht hcon
    rw [ht, hcon] at h8
    simp at h8

/-- C7 (amended): uploadFileAttachment rejects any call where neither id is
truthily present, where the size is non-positive or above the fixed 10MB
bound, where the MIME type is off the allow-list, where the filename or
path is blank after trimming, or where a truthily-supplied (nonzero)
inquiry or message id matches no row — an id of 0 counts as absent, so it
triggers no existence check; and on success the trimmed filename and path
are persisted. -/
theorem uploadFileAttachment_validations
    (fn fp : String) (sz : Int) (mt : String)
    (inquiryId messageId : Option Nat) (db : DB) :
    (truthyId inquiryId = false → truthyId messageId = false →
      uploadFileAttachment fn fp sz mt inquiryId messageId db =
        .error "Either inquiry_id or message_id must be provided") ∧
    (sz ≤ 0 →
      isErr (uploadFileAttachment fn fp sz mt inquiryId messageId db) = true) ∧
    (MAX_FILE_SIZE < sz →
      isErr (uploadFileAttachment fn fp sz mt inquiryId messageId db) = true) ∧
    (ALLOWED_MIME_TYPES.contains mt = false →
      isErr (uploadFileAttachment fn fp sz mt inquiryId messageId db) = true) ∧
    ((strTrim fn).length = 0 →
      isErr (uploadFileAttachment fn fp sz mt inquiryId messageId db) = true) ∧
    ((strTrim fp).length = 0 →
      isErr (uploadFileAttachment fn fp sz mt inquiryId messageId db) = true) ∧
    (truthyId inquiryId = true →
      (∀ i ∈ db.inquiries, some i.id ≠ inquiryId) →
      isErr (uploadFileAttachment fn fp sz mt inquiryId messageId db) = true) ∧
    (truthyId messageId = true →
      (∀ m ∈ db.messages, some m.id ≠ messageId) →
      isErr (uploadFileAttachment fn fp sz mt inquiryId messageId db) = true) ∧
    (∀ a db', uploadFileAttachment fn fp sz mt inquiryId messageId db =
        .ok (a, db') →
      a.filename = (strTrim fn) ∧ a.file_path = (strTrim fp)) := by
  refine ⟨?_, ?_, ?_, ?_, ?_, ?_, ?_, ?_, ?_⟩
  · intro h1 h2
    rw [uploadFileAttachment, if_pos (by simp [h1, h2])]
  · intro hsz
    cases hres : uploadFileAttachment fn fp sz mt inquiryId messageId db with
    | error e => rfl
    | ok p =>
      obtain ⟨a, db'⟩ := p
      have hv := uploadFileAttachment_ok_inv hres
      omega
  · intro hsz
    cases hres : uploadFileAttachment fn fp sz mt inquiryId messageId db with
    | error e => rfl
    | ok p =>
      obtain ⟨a, db'⟩ := p
      have hv := uploadFileAttachment_ok_inv hres
      omega
  · intro hmt
    cases hres : uploadFileAttachment fn fp sz mt inquiryId messageId db with
    | error e => rfl
    | ok p =>
      obtain ⟨a, db'⟩ := p
      have hv := uploadFileAttachment_ok_inv hres
      rw [hv.2.2.2.1] at hmt
      cases hmt
  · intro hfn
    cases hres : uploadFileAttachment fn fp sz mt inquiryId messageId db with
    | error e => rfl
    | ok p =>
      obtain ⟨a, db'⟩ := p
      have hv := uploadFileAttachment_ok_inv hres
      exact absurd hfn hv.2.2.2.2.1
  · intro hfp
    cases hres : uploadFileAttachment fn fp sz mt inquiryId messageId db with
    | error e => rfl
    | ok p =>
      obtain ⟨a, db'⟩ := p
      have hv := uploadFileAttachment_ok_inv hres
      exact absurd hfp hv.2.2.2.2.2.1
  · intro ht hnone
    cases hres : uploadFileAttachment fn fp sz mt inquiryId messageId db with
    | error e => rfl
    | ok p =>
      obtain ⟨a, db'⟩ := p
      have hv := uploadFileAttachment_ok_inv hres
      apply absurd _ (hv.2.2.2.2.2.2.1 ht)
      apply List.filter_eq_nil_iff.mpr
      intro i hi
      simpa using hnone i hi
  · intro ht hnone
    cases hres : uploadFileAttachment fn fp sz mt inquiryId messageId db with
    | error e => rfl
    | ok p =>
      obtain ⟨a, db'⟩ := p
      have hv := uploadFileAttachment_ok_inv hres
      apply absurd _ (hv.2.2.2.2.2.2.2.1 ht)
      apply List.filter_eq_nil_iff.mpr
      intro m hm
      simpa using hnone m hm
  · intro a db' hok
    have hv := uploadFileAttachment_ok_inv hok
    rw [hv.2.2.2.2.2.2.2.2.1]
    exact ⟨rfl, rfl⟩

/-- Concrete instance of uploadFileAttachment_validations: an 11MB PDF on
inquiry 10 of the sample store is rejected for exceeding the 10MB bound. -/
theorem uploadFileAttachment_validations_witness :
    isErr (uploadFileAttachment "doc.pdf" "/x" (11 * 1024 * 1024)
      "application/pdf" (some 10) none sampleDb) = true :=
  (uploadFileAttachment_validations "doc.pdf" "/x" (11 * 1024 * 1024)
    "application/pdf" (some 10) none sampleDb).2.2.1 (by decide)

/-- Counterexample to the unamended C7: the call below supplies inquiry id
0, which matches no inquiry of the sample store, yet it is accepted (and
stores null instead): presence is tested by JavaScript truthiness, so the
claimed referenced-inquiry existence check never runs for id 0. -/
theorem uploadFileAttachment_zero_inquiry_cex :
    (∀ i ∈ sampleDb.inquiries, i.id ≠ 0) ∧
    uploadFileAttachment "doc.pdf" "/x" 1024 "application/pdf"
      (some 0) (some 30) sampleDb =
      .ok (insertedAttachment "doc.pdf" "/x" 1024 "application/pdf"
             (some 0) (some 30) sampleDb,
           attachmentInsertedDb "doc.pdf" "/x" 1024 "application/pdf"
             (some 0) (some 30) sampleDb) ∧
    (insertedAttachment "doc.pdf" "/x" 1024 "application/pdf"
      (some 0) (some 30) sampleDb).inquiry_id = none :=
  ⟨by decide, by rfl, by rfl⟩

/-- C10: uploadFileAttachment tests presence of the optional ids with
JavaScript truthiness, so an id value of 0 counts as absent: inquiryId = 0
with no messageId fails with the either-id-must-be-provided error whatever
the rest of the input and store are, and on any successful call that passed
inquiryId = 0 alongside a message id the persisted inquiry_id is null (the
corresponding existence check was skipped — no assumption about the
inquiries table is needed). -/
theorem uploadFileAttachment_zero_id_truthiness :
    (∀ (fn fp : String) (sz : Int) (mt : String) (db : DB),
      uploadFileAttachment fn fp sz mt (some 0) none db =
        .error "Either inquiry_id or message_id must be provided") ∧
    (∀ (fn fp : String) (sz : Int) (mt : String) (mid : Nat) (db : DB)
      (a : FileAttachment) (db' : DB),
      uploadFileAttachment fn fp sz mt (some 0) (some mid) db = .ok (a, db') →
      a.inquiry_id = none) := by
  constructor
  · intro fn fp sz mt db
    rw [uploadFileAttachment, if_pos (by simp [truthyId])]
  · intro fn fp sz mt mid db a db' hok
    have hv := uploadFileAttachment_ok_inv hok
    rw [hv.2.2.2.2.2.2.2.2.1]
    simp [insertedAttachment, truthyId]

/-- Concrete instance of uploadFileAttachment_zero_id_truthiness: uploading
with inquiryId = 0 and messageId = 30 against the sample store persists a
null inquiry id. -/
theorem uploadFileAttachment_zero_id_truthiness_witness :
    (insertedAttachment "doc.pdf" "/x" 1024 "application/pdf"
      (some 0) (some 30) sampleDb).inquiry_id = none :=
  uploadFileAttachment_zero_id_truthiness.2 "doc.pdf" "/x" 1024
    "application/pdf" 30 sampleDb
    (insertedAttachment "doc.pdf" "/x" 1024 "application/pdf"
      (some 0) (some 30) sampleDb)
    (attachmentInsertedDb "doc.pdf" "/x" 1024 "application/pdf"
      (some 0) (some 30) sampleDb)
    (by rfl)

/-- C1 (amended): under duplicate-free user ids, with an existing buyer of
role buyer, a fresh inquiry id, and a duplicate-free supplier id list every
member of which names an existing supplier, createInquiry inserts one
pending Inquiry and exactly N = |supplier_ids| InquirySupplier rows whose
inquiry id equals the new inquiry's id (N = 0 giving a buyer-only inquiry
with no fan-out); and when some listed id names no supplier-roled user
(missing or wrong role), the whole call fails, so nothing is written. -/
theorem createInquiry_fanout (input : CreateInquiryInput) (db : DB)
    (buyer : User) (brest : List User)
    (hnodup : (db.users.map User.id).Nodup)
    (hfresh : ∀ r ∈ db.inquirySuppliers, r.inquiry_id ≠ db.nextId)
    (hbuyer : db.users.filter (fun u => u.id == input.buyer_id) =
      buyer :: brest)
    (hrole : buyer.role = .buyer) :
    (input.supplier_ids.Nodup →
      (∀ s ∈ input.supplier_ids,
        ∃ u, u ∈ db.users ∧ u.id = s ∧ u.role = Role.supplier) →
      createInquiry input db =
        .ok (insertedInquiry input db, inquiryInsertedDb input db) ∧
      (insertedInquiry input db).status = .pending ∧
      ((inquiryInsertedDb input db).inquirySuppliers.filter
          (fun r => r.inquiry_id == (insertedInquiry input db).id)).length =
        input.supplier_ids.length) ∧
    ((∃ s ∈ input.supplier_ids,
        ¬∃ u, u ∈ db.users ∧ u.id = s ∧ u.role = Role.supplier) →
      isErr (createInquiry input db) = true) := by
  constructor
  · intro hids hall
    have hlen : (db.users.filter
        (fun u => input.supplier_ids.contains u.id)).length =
        input.supplier_ids.length := by
      have hall2 : ∀ s ∈ input.supplier_ids, ∃ u, u ∈ db.users ∧ u.id = s :=
        fun s hs => (hall s hs).elim (fun u hu => ⟨u, hu.1, hu.2.1⟩)
      exact length_filter_contains hnodup hids hall2
    have hnonsup : (db.users.filter
        (fun u => input.supplier_ids.contains u.id)).filter
        (fun s => s.role != Role.supplier) = [] := by
      apply List.filter_eq_nil_iff.mpr
      intro u hu hpred
      have hmem := List.mem_filter.mp hu
      have hin : u.id ∈ input.supplier_ids :=
        List.mem_of_elem_eq_true hmem.2
      rcases hall u.id hin with ⟨v, hv, hvid, hvrole⟩
      have huv : u = v := key_inj hnodup hmem.1 hv hvid.symm
      rw [huv, hvrole] at hpred
      simp at hpred
    have hrun : createInquiry input db =
        .ok (insertedInquiry input db, inquiryInsertedDb input db) := by
      simp only [createInquiry, hbuyer]
      rw [if_neg (by simp [hrole])]
      rw [if_neg (by rw [hlen]; simp)]
      rw [if_neg (by rw [hnonsup]; simp)]
      rfl
    refine ⟨hrun, rfl, ?_⟩
    show ((db.inquirySuppliers ++ mkInquirySupplierRows input.supplier_ids
        (db.nextId + 1) db.nextId db.now).filter
        (fun r => r.inquiry_id == db.nextId)).length =
      input.supplier_ids.length
    rw [List.filter_append]
    have hold : db.inquirySuppliers.filter
        (fun r => r.inquiry_id == db.nextId) = [] := by
      apply List.filter_eq_nil_iff.mpr
      intro r hr
      simpa using hfresh r hr
    have hnew : (mkInquirySupplierRows input.supplier_ids
        (db.nextId + 1) db.nextId db.now).filter
        (fun r => r.inquiry_id == db.nextId) =
        mkInquirySupplierRows input.supplier_ids
          (db.nextId + 1) db.nextId db.now := by
      apply List.filter_eq_self.mpr
      intro r hr
      simp [mkInquirySupplierRows_inquiry_id _ _ _ _ r hr]
    rw [hold, hnew, List.nil_append, mkInquirySupplierRows_length]
  · intro hbad
    rcases hbad with ⟨s, hs, hnosup⟩
    have hpos : 0 < input.supplier_ids.length :=
      List.length_pos.mpr (List.ne_nil_of_mem hs)
    simp only [createInquiry, hbuyer]
    rw [if_neg (by simp [hrole])]
    by_cases hlen : (db.users.filter
        (fun u => input.supplier_ids.contains u.id)).length =
        input.supplier_ids.length
    · rw [if_neg (by rw [hlen]; simp)]
      have hsup : (db.users.filter
          (fun u => input.supplier_ids.contains u.id)).map User.id ⊆
          input.supplier_ids := by
        intro c hc
        rcases List.mem_map.mp hc with ⟨x, hx, rfl⟩
        exact List.mem_of_elem_eq_true (List.mem_filter.mp hx).2
      have hnodupl : ((db.users.filter
          (fun u => input.supplier_ids.contains u.id)).map User.id).Nodup :=
        ((List.filter_sublist db.users).map User.id).nodup hnodup
      have hperm := (List.subperm_of_subset hnodupl hsup).perm_of_length_le
        (by simpa using Nat.le_of_eq hlen.symm)
      have hsin : s ∈ (db.users.filter
          (fun u => input.supplier_ids.contains u.id)).map User.id :=
        hperm.mem_iff.mpr hs
      rcases List.mem_map.mp hsin with ⟨u, hu, huid⟩
      have humem := List.mem_filter.mp hu
      have hur : u.role ≠ Role.supplier := by
        intro hcon
        exact hnosup ⟨u, humem.1, huid, hcon⟩
      have hnonempty : u ∈ (db.users.filter
          (fun u => input.supplier_ids.contains u.id)).filter
          (fun x => x.role != Role.supplier) :=
        List.mem_filter.mpr ⟨hu, by simp [hur]⟩
      rw [if_pos ?c]
      · rfl
      case c =>
        have hgt : 0 < ((db.users.filter
            (fun u => input.supplier_ids.contains u.id)).filter
            (fun x => x.role != Role.supplier)).length :=
          List.length_pos.mpr (List.ne_nil_of_mem hnonempty)
        exact (Bool.and_eq_true _ _).mpr
          ⟨decide_eq_true hpos, decide_eq_true hgt⟩
    · rw [if_pos ((Bool.and_eq_true _ _).mpr
        ⟨decide_eq_true hpos, bne_iff_ne.mpr hlen⟩)]
      rfl

/-- Counterexample to the unamended C1: in the sample store the buyer
exists with role buyer and every id in the list [2, 2] names an existing
supplier, yet createInquiry fails — the bulk select returns the row for
user 2 once, so its row count (1) mismatches the list length (2) and the
call aborts instead of inserting N = 2 fan-out rows. -/
theorem createInquiry_duplicate_ids_cex :
    (∃ u ∈ sampleDb.users, u.id = cInDup.buyer_id ∧ u.role = Role.buyer) ∧
    (∀ s ∈ cInDup.supplier_ids,
      ∃ u ∈ sampleDb.users, u.id = s ∧ u.role = Role.supplier) ∧
    isErr (createInquiry cInDup sampleDb) = true :=
  ⟨by decide, by decide, by rfl⟩

/-- Concrete instance of createInquiry_fanout: fanning inquiry creation out
to suppliers 2 and 3 in the sample store yields a pending inquiry with
exactly two fan-out rows. -/
theorem createInquiry_fanout_witness :
    createInquiry cIn2 sampleDb =
      .ok (insertedInquiry cIn2 sampleDb, inquiryInsertedDb cIn2 sampleDb) ∧
    (insertedInquiry cIn2 sampleDb).status = .pending ∧
    ((inquiryInsertedDb cIn2 sampleDb).inquirySuppliers.filter
        (fun r => r.inquiry_id == (insertedInquiry cIn2 sampleDb).id)).length =
      cIn2.supplier_ids.length :=
  (createInquiry_fanout cIn2 sampleDb uBuyer [] (by decide) (by decide)
    (by rfl) (by decide)).1 (by decide) (by decide)

/-- C5: the shipped searchSuppliers is the unfinished placeholder and
returns no rows on every input, here evaluated on the filterless search
over a store holding a matching supplier with a profile; the spec-modelled
search (searchSuppliersSpec) returns that supplier on the same input, so
the handler contradicts its own documented goal of filtering and returning
matching suppliers. -/
theorem searchSuppliers_stub_returns_empty :
    searchSuppliers emptyFilters searchDb = [] ∧
    uSupplier ∈ searchSuppliersSpec emptyFilters searchDb :=
  ⟨rfl, by decide⟩
